import Mathlib

/-!
Shallow embedding of the UMROTC/monorepo financial projection engine.

Part A embeds `src/app-two/src/Financial_model_app.py`:
  the 300-month net-worth simulator (`calculate_monthly_financials`)
  and the pair-report sampling helpers (`generate_pair_report`).

Part B embeds `src/app-one/src/streamlit_app.py`:
  the progressive tax calculator (`calculate_tax`, `calculate_tax_by_status`),
  the budget allocator's savings resolution and final budget computation,
  the submission gate, and the military-twin ("-mil doppelganger") synthesis.

Money values are modelled exactly as rationals; Python float arithmetic is
modelled as exact arithmetic on `ℚ`.  The simulator's monthly compounding
rate `monthly_rate = 1.05 ** (1/12) - 1` is an irrational real computed in
floating point by the code; the embedding takes it as an explicit parameter
`rate`, so every theorem below holds in particular at that rate.
-/

/-- Python's `str.strip()` (and pandas `.str.strip()`): remove leading and
trailing whitespace. -/
def pyStrip (s : String) : String :=
  String.mk (((s.toList.dropWhile Char.isWhitespace).reverse.dropWhile
    Char.isWhitespace).reverse)

/-- Python's `str.lower()` on the ASCII strings of the reference data. -/
def pyLower (s : String) : String :=
  String.mk (s.toList.map Char.toLower)

/-- Python's `c in s` membership test for a single character. -/
def pyContains (s : String) (c : Char) : Bool :=
  s.toList.contains c

namespace FinModel

/-- One month's sample as produced by `calculate_monthly_financials`:
the keys of the per-month dict `{"Month", "Accrued Savings", "Loan Value",
"Net Worth", "Profession"}`. -/
structure MonthlyFinancialSample where
  month : ℕ
  accruedSavings : ℚ
  loanValue : ℚ
  netWorth : ℚ
  profession : String
deriving DecidableEq, Repr

/-- One row of the profession-keyed reference table (civilian
`Skillset_cost_worksheet_CSV.csv` or military `GI_Bill_Application.csv`):
the columns read by `calculate_monthly_financials`.  `loanValues` models the
columns `month 1` .. `month 300`; a list of length other than 300 models a
row whose loan columns are missing (the code's extraction raises there). -/
structure ProfessionProfile where
  profession : String
  monthsSchool : ℤ
  monthlySavingsInSchool : ℚ
  monthlySavings : ℚ
  loanValues : List ℚ
deriving DecidableEq, Repr

/-- The participant-row fields read by `calculate_monthly_financials`:
`Military Service`, `Profession`, and the participant's own
`Monthly Savings` column (`none` models a missing key, in which case
`row.get` falls back to the table's value). -/
structure ParticipantRow where
  name : String
  militaryService : String
  profession : String
  monthlySavings : Option ℚ
deriving DecidableEq, Repr

/-- Diagnostics surfaced by the simulator's degraded paths (the code's
`print("[DEBUG] ...")` messages). -/
inductive Diag where
  | professionNotFound (profession : String)
  | loanDataError (profession : String)
deriving DecidableEq, Repr

/-- The accrued-savings recurrence of `calculate_monthly_financials`
step 7, embedded literally: month `m+1` is computed from the previous
list entry, with the code's special cases at `m == 1` (the list is empty
there, so no prior entry is read).  `accrued_savings ... 0 = 0` is the
empty-list state before the loop. -/
def accrued_savings (rate inSchool post : ℚ) (monthsSchool : ℤ) : ℕ → ℚ
  | 0 => 0
  | m + 1 =>
    if 0 < monthsSchool ∧ ((m + 1 : ℕ) : ℤ) ≤ monthsSchool then
      if m = 0 then inSchool
      else accrued_savings rate inSchool post monthsSchool m + inSchool
    else
      if m = 0 then post
      else accrued_savings rate inSchool post monthsSchool m * (1 + rate) + post

/-- Reference-table selection and profession lookup (steps 1-3 of
`calculate_monthly_financials`): civilian table iff `Military Service`
lower-cases to `"no"`; match on whitespace-trimmed profession strings. -/
def lookupProfile (row : ParticipantRow) (skill gi : List ProfessionProfile) :
    Option ProfessionProfile :=
  let loanSource := if (pyLower (pyStrip row.militaryService) = "no") then skill else gi
  loanSource.find? (fun p => pyStrip p.profession = pyStrip row.profession)

/-- Step 5: for military participants the post-school monthly savings from
the table is overridden by the participant's own `Monthly Savings` value
when that column is present. -/
def postSchoolSavings (row : ParticipantRow) (p : ProfessionProfile) : ℚ :=
  if pyLower (pyStrip row.militaryService) = "no" then p.monthlySavings
  else row.monthlySavings.getD p.monthlySavings

/-- The zero-filled degradation series (`default_financials` in the code):
300 samples, every monetary field 0. -/
def defaultFinancials (profession : String) : List MonthlyFinancialSample :=
  (List.range 300).map (fun idx =>
    { month := idx + 1, accruedSavings := 0, loanValue := 0, netWorth := 0,
      profession := profession })

/-- Embedding of `calculate_monthly_financials(row, skill_df, gi_bill_df)`:
selects the reference table, looks up the profession, degrades to the
zero series plus a diagnostic on a miss or on unreadable loan columns,
and otherwise produces the 300 samples from the accrued-savings
recurrence and the row's loan vector. -/
def calculate_monthly_financials (rate : ℚ) (row : ParticipantRow)
    (skill gi : List ProfessionProfile) :
    List MonthlyFinancialSample × List Diag :=
  let profession := pyStrip row.profession
  match lookupProfile row skill gi with
  | none => (defaultFinancials profession, [Diag.professionNotFound profession])
  | some loanRow =>
    if loanRow.loanValues.length = 300 then
      let post := postSchoolSavings row loanRow
      ((List.range 300).map (fun idx =>
        let s := accrued_savings rate loanRow.monthlySavingsInSchool post
          loanRow.monthsSchool (idx + 1)
        let lv := loanRow.loanValues.getD idx 0
        { month := idx + 1, accruedSavings := s, loanValue := lv,
          netWorth := s + lv, profession := profession }), [])
    else (defaultFinancials profession, [Diag.loanDataError profession])

/-- Embedding of `get_networth_20` inside `generate_pair_report`: returns
`nw_list[239]["Net Worth"]` when the series has at least 240 samples,
`None` otherwise. -/
def get_networth_20 (nwList : List MonthlyFinancialSample) : Option ℚ :=
  if 240 ≤ nwList.length then (nwList.get? 239).map (fun s => s.netWorth) else none

/-- The chart data built by `generate_pair_report`: the `(Name, Net Worth)`
pairs appended for the participant and then the `-mil` counterpart,
each only when its `get_networth_20` value is present. -/
def pairChartData (pName mName : String)
    (pSeries mSeries : List MonthlyFinancialSample) : List (String × ℚ) :=
  (match get_networth_20 pSeries with
   | some v => [(pName, v)]
   | none => []) ++
  (match get_networth_20 mSeries with
   | some v => [(mName, v)]
   | none => [])

end FinModel

namespace BudgetApp

/-- One row of the tax worksheet: columns `Status`, `Type`, `Lower Bound`,
`Upper Bound` (`none` models NaN, treated as infinity), `Rate`,
`Standard Deduction`. -/
structure TaxBracket where
  status : String
  type : String
  lowerBound : ℚ
  upperBound : Option ℚ
  rate : ℚ
  standardDeduction : ℚ
deriving DecidableEq, Repr

/-- One row of the lifestyle decision table: columns `Category`, `Option`,
`Monthly Cost`, and `Percentage` (Savings rows only; `none` models NaN). -/
structure LifestyleRow where
  category : String
  option : String
  monthlyCost : ℚ
  percentage : Option String
deriving DecidableEq, Repr

/-- One row of the skillset cost worksheet as read by the budget app:
columns `Profession`, `Requires School`, `Average Salary`,
`Savings During School`. -/
structure SkillRow where
  profession : String
  requiresSchool : String
  averageSalary : ℚ
  savingsDuringSchool : ℚ
deriving DecidableEq, Repr

/-- The bracket loop body of `calculate_tax` after sorting: accumulate
`(min(income, upper) - lower) * rate` while `income > lower`, and `break`
at the first bracket whose lower bound is not exceeded. -/
def taxFromBrackets (income : ℚ) : List TaxBracket → ℚ
  | [] => 0
  | b :: rest =>
    if b.lowerBound < income then
      ((match b.upperBound with
        | some u => min income u
        | none => income) - b.lowerBound) * b.rate + taxFromBrackets income rest
    else 0

/-- Embedding of `calculate_tax(income, tax_brackets)`: sort brackets by `Lower Bound`,
then run the progressive accumulation loop. -/
def calculate_tax (income : ℚ) (brackets : List TaxBracket) : ℚ :=
  taxFromBrackets income
    (brackets.mergeSort (fun a b => a.lowerBound ≤ b.lowerBound))

/-- Embedding of `calculate_tax_by_status(income, marital_status, tax_data)`: filter to
(status, Federal) and (status, State) brackets, return `(0,0,0,0)` when
either set is empty, otherwise take the standard deduction off the first
federal row, floor taxable income at 0, and tax each set independently.
Result is `(taxable_income, federal_tax, state_tax, total_tax)`. -/
def calculate_tax_by_status (income : ℚ) (maritalStatus : String)
    (taxData : List TaxBracket) : ℚ × ℚ × ℚ × ℚ :=
  let federalBrackets := taxData.filter
    (fun b => b.status = maritalStatus ∧ b.type = "Federal")
  let stateBrackets := taxData.filter
    (fun b => b.status = maritalStatus ∧ b.type = "State")
  match federalBrackets with
  | [] => (0, 0, 0, 0)
  | fb :: _ =>
    if stateBrackets.isEmpty then (0, 0, 0, 0)
    else
      let taxableIncome := max 0 (income - fb.standardDeduction)
      let federalTax := calculate_tax taxableIncome federalBrackets
      let stateTax := calculate_tax taxableIncome stateBrackets
      (taxableIncome, federalTax, stateTax, federalTax + stateTax)

/-- Step 2 of `main`: the base annual salary is `Savings During School`
when the profession's `Requires School` lower-cases to `"yes"`, otherwise
`Average Salary`. -/
def selectedSalary (sp : SkillRow) : ℚ :=
  if pyLower sp.requiresSchool = "yes" then sp.savingsDuringSchool
  else sp.averageSalary

/-- The tax tuple computed by `main` for a profession choice: `calculate_tax_by_status`
applied to the selected base salary. -/
def sessionTaxes (taxData : List TaxBracket) (maritalStatus : String)
    (sp : SkillRow) : ℚ × ℚ × ℚ × ℚ :=
  calculate_tax_by_status (selectedSalary sp) maritalStatus taxData

/-- Embedding of `monthly_income_after_tax = (salary - federal_tax - state_tax) / 12`. -/
def monthly_income_after_tax (taxData : List TaxBracket) (maritalStatus : String)
    (sp : SkillRow) : ℚ :=
  (selectedSalary sp - (sessionTaxes taxData maritalStatus sp).2.1
    - (sessionTaxes taxData maritalStatus sp).2.2.1) / 12

/-- Digit-list to natural conversion used by the percentage parser. -/
def natOfDigits (cs : List Char) : ℕ :=
  cs.foldl (fun n c => 10 * n + (c.toNat - 48)) 0

/-- Models Python's `float(...)` on the plain numeral strings occurring in
the `Percentage` column: digits with an optional decimal point (`"10"`,
`"12.5"`, `".5"`, `"5."`); anything else raises, i.e. yields `none`. -/
def pyFloat (s : String) : Option ℚ :=
  match s.toList.span (fun c => c ≠ '.') with
  | (intPart, []) =>
    if 0 < intPart.length ∧ intPart.all Char.isDigit then
      some (natOfDigits intPart)
    else none
  | (intPart, _ :: fracPart) =>
    if fracPart.contains '.' then none
    else if 0 < intPart.length + fracPart.length ∧ intPart.all Char.isDigit
        ∧ fracPart.all Char.isDigit then
      some ((natOfDigits intPart : ℚ)
        + (natOfDigits fracPart : ℚ) / (10 : ℚ) ^ fracPart.length)
    else none

/-- Python's `str.strip("%")`: remove leading and trailing `%` characters. -/
def stripPercentChars (s : String) : String :=
  String.mk (((s.toList.dropWhile (fun c => c = '%')).reverse.dropWhile
    (fun c => c = '%')).reverse)

/-- The first lifestyle row with `Category == "Savings"` and the chosen
option (`savings_row ... .values[0]`). -/
def savingsRowFor (lifestyleData : List LifestyleRow) (choice : String) :
    Option LifestyleRow :=
  lifestyleData.find? (fun r => r.category = "Savings" ∧ r.option = choice)

/-- The resolved savings amount (steps 4b and the final-budget block of
`main`).  The "whatever is left" branch (matched case-insensitively) pays
`income - expenses` when positive and 0 otherwise; every other branch reads
the option's `Percentage` string: when it is present and contains `%` and
its stripped form parses as a number `N`, savings is `(N/100) * income`;
on a missing row, missing field, or parse failure savings defaults to 0.
No clamping against the remaining budget occurs in any branch. -/
def resolveSavings (lifestyleData : List LifestyleRow) (savingsChoice : String)
    (monthlyIncomeAfterTax totalExpenses : ℚ) : ℚ :=
  if pyLower savingsChoice = "whatever is left" then
    if monthlyIncomeAfterTax - totalExpenses ≤ 0 then 0
    else monthlyIncomeAfterTax - totalExpenses
  else
    match savingsRowFor lifestyleData savingsChoice with
    | none => 0
    | some r =>
      match r.percentage with
      | none => 0
      | some s =>
        if pyContains s '%' then
          match pyFloat (stripPercentChars s) with
          | some n => n / 100 * monthlyIncomeAfterTax
          | none => 0
        else 0

/-- A ledger entry of `selected_lifestyle_choices`:
`(category, choice, cost)`. -/
abbrev LedgerEntry := String × String × ℚ

/-- Embedding of `total_expenses`: sum of the costs of every ledger entry whose category
is neither `"Military Service"` nor `"Savings"`. -/
def total_expenses (entries : List LedgerEntry) : ℚ :=
  ((entries.filter (fun e =>
    ¬ (e.1 = "Military Service" ∨ e.1 = "Savings"))).map (fun e => e.2.2)).sum

/-- The final-budget block of `main`: the ledger holds the Military Service
entry at cost 0, the chosen non-savings categories, and the Savings entry
whose cost is updated to the resolved savings; the remaining budget is
`monthly_income_after_tax - total_expenses - calculated_savings`.
Returns `(ledger, calculated_savings, remaining_budget)`. -/
def finalBudget (lifestyleData : List LifestyleRow) (income : ℚ)
    (militaryServiceChoice savingsChoice : String)
    (nonSavingsChoices : List LedgerEntry) :
    List LedgerEntry × ℚ × ℚ :=
  let entries0 : List LedgerEntry :=
    ("Military Service", militaryServiceChoice, 0) :: nonSavingsChoices
      ++ [("Savings", savingsChoice, 0)]
  let expenses := total_expenses entries0
  let savings := resolveSavings lifestyleData savingsChoice income expenses
  let entries : List LedgerEntry :=
    ("Military Service", militaryServiceChoice, 0) :: nonSavingsChoices
      ++ [("Savings", savingsChoice, savings)]
  (entries, savings, income - expenses - savings)

/-- The participant record built on submission (`data` dict).  The
`Children` / `Who Pays for College` / `Health Insurance` choice-and-cost
pairs are `Option`-valued because a category skipped for lack of options
produces no keys; `otherCategories` carries the remaining categories'
`(category, choice, cost)` fields. -/
structure ParticipantRecord where
  name : String
  profession : String
  maritalStatus : String
  militaryService : String
  annualSalary : ℚ
  standardDeduction : ℚ
  taxableIncome : ℚ
  federalTax : ℚ
  stateTax : ℚ
  totalTax : ℚ
  monthlyIncomeAfterTax : ℚ
  childrenChoice : Option String
  childrenCost : Option ℚ
  whoPaysChoice : Option String
  whoPaysCost : Option ℚ
  healthChoice : Option String
  healthCost : Option ℚ
  otherCategories : List LedgerEntry
deriving DecidableEq, Repr

/-- The lifestyle row priced for the Military Health Insurance option
(`mil_health_row ... .values[0]`). -/
def milHealthRow (lifestyleData : List LifestyleRow) : Option LifestyleRow :=
  lifestyleData.find? (fun r =>
    r.category = "Health Insurance" ∧ r.option = "Military")

/-- The `-mil` doppelganger synthesis: copy the record, suffix the name,
force Military Service to "Part Time"; set Children's choice to "Military"
only when a Children cost is present and nonzero; set Who Pays for College
and Health Insurance choices to "Military" whenever present; and re-price
the Health Insurance cost from the lifestyle table's Military row when the
Health Insurance choice is present and that row exists. -/
def makeDoppelganger (lifestyleData : List LifestyleRow)
    (r : ParticipantRecord) : ParticipantRecord :=
  { r with
    name := r.name ++ "-mil"
    militaryService := "Part Time"
    childrenChoice :=
      match r.childrenCost with
      | some c => if c ≠ 0 then some "Military" else r.childrenChoice
      | none => r.childrenChoice
    whoPaysChoice :=
      if r.whoPaysChoice.isSome then some "Military" else r.whoPaysChoice
    healthChoice :=
      if r.healthChoice.isSome then some "Military" else r.healthChoice
    healthCost :=
      if r.healthChoice.isSome then
        match milHealthRow lifestyleData with
        | some row => some row.monthlyCost
        | none => r.healthCost
      else r.healthCost }

/-- The submission gate's outcomes (step 5 of `main`), in the order the
code tests them. -/
inductive SubmitOutcome where
  | missingName
  | missingProfession
  | overspent
  | surplus
  | accepted
deriving DecidableEq, Repr

/-- The submission gate: empty name, then empty profession, then negative
remaining budget, then positive remaining budget each reject; only an
exactly-zero remaining budget with name and profession present accepts. -/
def submitOutcome (participantName profession : String) (remainingBudget : ℚ) :
    SubmitOutcome :=
  if participantName = "" then SubmitOutcome.missingName
  else if profession = "" then SubmitOutcome.missingProfession
  else if remainingBudget < 0 then SubmitOutcome.overspent
  else if remainingBudget > 0 then SubmitOutcome.surplus
  else SubmitOutcome.accepted

/-- The records appended to the participant store on submission: the
original record followed by its doppelganger when the gate accepts,
nothing otherwise. -/
def persistedRecords (lifestyleData : List LifestyleRow)
    (r : ParticipantRecord) (remainingBudget : ℚ) : List ParticipantRecord :=
  if submitOutcome r.name r.profession remainingBudget = SubmitOutcome.accepted
  then [r, makeDoppelganger lifestyleData r]
  else []

end BudgetApp

section Claims

open FinModel BudgetApp

set_option maxRecDepth 8000

/-- Unfolding equation for the successor case of `accrued_savings`. -/
theorem accrued_savings_succ (rate inSchool post : ℚ) (ms : ℤ) (m : ℕ) :
    accrued_savings rate inSchool post ms (m + 1)
      = if 0 < ms ∧ ((m + 1 : ℕ) : ℤ) ≤ ms then
          (if m = 0 then inSchool
           else accrued_savings rate inSchool post ms m + inSchool)
        else
          (if m = 0 then post
           else accrued_savings rate inSchool post ms m * (1 + rate) + post) :=
  rfl

/-- Fixture: a participant row whose profession is found in the civilian
table. -/
def wRow : ParticipantRow :=
  { name := "Alex", militaryService := "No", profession := "Eng",
    monthlySavings := none }

/-- Fixture: a reference-table row for profession "Eng" with 2 months of
school and a 300-month loan vector. -/
def wProfile : ProfessionProfile :=
  { profession := "Eng", monthsSchool := 2, monthlySavingsInSchool := 5,
    monthlySavings := 7, loanValues := List.replicate 300 0 }

/-- C1: for a found profession profile, the simulator's savings sequence
satisfies savings[0] = 0, the linear in-school recurrence
savings[m] = savings[m-1] + monthlyInSchoolSavings for 1 ≤ m ≤ monthsOfSchool,
and the compounding post-school recurrence
savings[m] = savings[m-1] * (1 + rate) + monthlyPostSchoolSavings for
m > monthsOfSchool (so the first post-school month uses the in-school final
balance as its prior value); and the samples returned by
`calculate_monthly_financials` carry exactly this sequence.  The statement
is proved for every monthly rate, hence in particular for the code's
rate 1.05 ^ (1/12) - 1. -/
theorem c1_savings_recurrence (rate inSchool post : ℚ) (ms : ℤ) :
    accrued_savings rate inSchool post ms 0 = 0 ∧
    (∀ m : ℕ, 1 ≤ m → (m : ℤ) ≤ ms →
      accrued_savings rate inSchool post ms m
        = accrued_savings rate inSchool post ms (m - 1) + inSchool) ∧
    (∀ m : ℕ, 1 ≤ m → ms < (m : ℤ) →
      accrued_savings rate inSchool post ms m
        = accrued_savings rate inSchool post ms (m - 1) * (1 + rate) + post) ∧
    (∀ (row : ParticipantRow) (skill gi : List ProfessionProfile)
        (p : ProfessionProfile),
      lookupProfile row skill gi = some p →
      p.loanValues.length = 300 →
      ∀ i : ℕ, i < 300 →
        ((calculate_monthly_financials rate row skill gi).1.getD i
            ⟨0, 0, 0, 0, ""⟩).accruedSavings
          = accrued_savings rate p.monthlySavingsInSchool
              (postSchoolSavings row p) p.monthsSchool (i + 1)) := by
  refine ⟨rfl, ?_, ?_, ?_⟩
  · intro m h1 h2
    obtain ⟨k, rfl⟩ : ∃ k, m = k + 1 := ⟨m - 1, by omega⟩
    have hcond : 0 < ms ∧ ((k + 1 : ℕ) : ℤ) ≤ ms := ⟨by omega, h2⟩
    rw [accrued_savings_succ, if_pos hcond]
    rcases Nat.eq_zero_or_pos k with hk | hk
    · subst hk
      simp [accrued_savings]
    · rw [if_neg (by omega : ¬ k = 0)]
      simp
  · intro m h1 h2
    obtain ⟨k, rfl⟩ : ∃ k, m = k + 1 := ⟨m - 1, by omega⟩
    have hcond : ¬ (0 < ms ∧ ((k + 1 : ℕ) : ℤ) ≤ ms) := by
      intro hc
      omega
    rw [accrued_savings_succ, if_neg hcond]
    rcases Nat.eq_zero_or_pos k with hk | hk
    · subst hk
      simp [accrued_savings]
    · rw [if_neg (by omega : ¬ k = 0)]
      simp
  · intro row skill gi p hfind hlen i hi
    simp only [calculate_monthly_financials, hfind, if_pos hlen]
    rw [List.getD_eq_getElem _ _ (by simpa using hi)]
    simp [hi]

/-- Witness for C1 at concrete inputs: the in-school step at month 1, the
post-school step at month 3, and the sample link at index 0. -/
theorem c1_savings_recurrence_witness :
    accrued_savings (1/2) 5 7 2 1 = accrued_savings (1/2) 5 7 2 0 + 5 ∧
    accrued_savings (1/2) 5 7 2 3
      = accrued_savings (1/2) 5 7 2 2 * (1 + 1/2) + 7 ∧
    ((calculate_monthly_financials (1/2) wRow [wProfile] []).1.getD 0
        ⟨0, 0, 0, 0, ""⟩).accruedSavings
      = accrued_savings (1/2) wProfile.monthlySavingsInSchool
          (postSchoolSavings wRow wProfile) wProfile.monthsSchool 1 := by
  obtain ⟨h0, hin, hpost, hlink⟩ := c1_savings_recurrence (1/2) 5 7 2
  exact ⟨hin 1 (by decide) (by decide), hpost 3 (by decide) (by decide),
    hlink wRow [wProfile] [] wProfile (by decide) (by decide) 0 (by decide)⟩

/-- C2: for every participant row the simulator returns exactly 300
samples; on a profession-lookup miss it returns the zero-filled series
together with a `professionNotFound` diagnostic (a total function, so no
fatal error is raised), and every sample of that series has accrued
savings, loan value and net worth 0. -/
theorem c2_series_length_and_miss (rate : ℚ) (row : ParticipantRow)
    (skill gi : List ProfessionProfile) :
    (calculate_monthly_financials rate row skill gi).1.length = 300 ∧
    (lookupProfile row skill gi = none →
      calculate_monthly_financials rate row skill gi
        = (defaultFinancials (pyStrip row.profession),
           [Diag.professionNotFound (pyStrip row.profession)]) ∧
      ∀ s ∈ (calculate_monthly_financials rate row skill gi).1,
        s.accruedSavings = 0 ∧ s.loanValue = 0 ∧ s.netWorth = 0) := by
  constructor
  · cases hfind : lookupProfile row skill gi with
    | none => simp [calculate_monthly_financials, hfind, defaultFinancials]
    | some p =>
      by_cases hlen : p.loanValues.length = 300
      · simp [calculate_monthly_financials, hfind, if_pos hlen]
      · simp [calculate_monthly_financials, hfind, if_neg hlen,
          defaultFinancials]
  · intro hnone
    refine ⟨by simp [calculate_monthly_financials, hnone], ?_⟩
    intro s hs
    simp only [calculate_monthly_financials, hnone, defaultFinancials,
      List.mem_map, List.mem_range] at hs
    obtain ⟨i, _, rfl⟩ := hs
    exact ⟨rfl, rfl, rfl⟩

/-- Fixture: a participant row whose profession is in neither table. -/
def wRowMiss : ParticipantRow :=
  { name := "Sam", militaryService := "No", profession := "Nope",
    monthlySavings := none }

/-- Witness for C2: a concrete lookup miss degrades to the zero series
plus the diagnostic. -/
theorem c2_series_length_and_miss_witness :
    calculate_monthly_financials (1/2) wRowMiss [wProfile] []
      = (defaultFinancials "Nope", [Diag.professionNotFound "Nope"]) := by
  exact ((c2_series_length_and_miss (1/2) wRowMiss [wProfile] []).2
    (by decide)).1

/-- C3: for every completed allocation, the final remaining budget equals
monthly income after tax minus the sum of all non-Savings ledger costs
(the Military Service entry carries cost 0) minus the resolved savings,
exactly. -/
theorem c3_budget_balance (lifestyleData : List LifestyleRow) (income : ℚ)
    (milChoice savingsChoice : String) (nonSavings : List LedgerEntry)
    (h : ∀ e ∈ nonSavings, e.1 ≠ "Military Service" ∧ e.1 ≠ "Savings") :
    (finalBudget lifestyleData income milChoice savingsChoice nonSavings).2.2
      = income
        - ((((finalBudget lifestyleData income milChoice savingsChoice
              nonSavings).1.filter (fun e => e.1 ≠ "Savings")).map
            (fun e => e.2.2)).sum)
        - (finalBudget lifestyleData income milChoice savingsChoice
            nonSavings).2.1 := by
  have hfilter : nonSavings.filter
      (fun e => !decide (e.1 = "Military Service")
        && !decide (e.1 = "Savings")) = nonSavings :=
    List.filter_eq_self.mpr (fun e he => by
      obtain ⟨h1, h2⟩ := h e he
      simp [h1, h2])
  have hfilter2 : nonSavings.filter
      (fun e => !decide (e.1 = "Savings")) = nonSavings :=
    List.filter_eq_self.mpr (fun e he => by simp [(h e he).2])
  simp [finalBudget, total_expenses, List.filter_cons, List.filter_append,
    hfilter, hfilter2]

/-- Witness for C3 at a concrete allocation. -/
theorem c3_budget_balance_witness :
    (finalBudget [] 1000 "No" "whatever is left"
        [("Housing", "Apartment", 700)]).2.2
      = 1000
        - ((((finalBudget [] 1000 "No" "whatever is left"
              [("Housing", "Apartment", 700)]).1.filter
            (fun e => e.1 ≠ "Savings")).map (fun e => e.2.2)).sum)
        - (finalBudget [] 1000 "No" "whatever is left"
            [("Housing", "Apartment", 700)]).2.1 :=
  c3_budget_balance [] 1000 "No" "whatever is left"
    [("Housing", "Apartment", 700)] (by decide)

/-- Fixture: a lifestyle table with one percentage-based Savings option. -/
def cxLifestyle : List LifestyleRow :=
  [{ category := "Savings", option := "Save 10 Percent", monthlyCost := 0,
     percentage := some "10%" }]

/-- Counterexample for C4: with income 1000 and pre-savings expenses 950,
the "10%" Savings option resolves to 100, which exceeds the pre-savings
remaining budget of 50 — no clamping occurs. -/
theorem c4_counterexample :
    resolveSavings cxLifestyle "Save 10 Percent" 1000 950 = 100 ∧
    ¬ resolveSavings cxLifestyle "Save 10 Percent" 1000 950
        ≤ 1000 - 950 := by
  have hrow : savingsRowFor cxLifestyle "Save 10 Percent"
      = some { category := "Savings", option := "Save 10 Percent",
               monthlyCost := 0, percentage := some "10%" } := by decide
  have hpf : pyFloat (stripPercentChars "10%") = some 10 := by decide
  have hval : resolveSavings cxLifestyle "Save 10 Percent" 1000 950
      = 10 / 100 * 1000 := by
    simp [resolveSavings, hrow, hpf,
      show pyLower "Save 10 Percent" ≠ "whatever is left" from by decide,
      show pyContains "10%" '%' = true from by decide]
  rw [hval]
  norm_num

/-- C4 (amended): a percentage-based Savings option whose Percentage field
parses as N% resolves to (N/100) * monthlyIncomeAfterTax unconditionally:
the code performs no clamping against the pre-savings remaining budget. -/
theorem c4_percentage_savings (lifestyleData : List LifestyleRow)
    (choice : String) (income expenses n : ℚ) (s : String) (r : LifestyleRow)
    (h1 : pyLower choice ≠ "whatever is left")
    (h2 : savingsRowFor lifestyleData choice = some r)
    (h3 : r.percentage = some s)
    (h4 : pyContains s '%' = true)
    (h5 : pyFloat (stripPercentChars s) = some n) :
    resolveSavings lifestyleData choice income expenses = n / 100 * income := by
  simp [resolveSavings, h1, h2, h3, h4, h5]

/-- Witness for C4 (amended) at the concrete fixture. -/
theorem c4_percentage_savings_witness :
    resolveSavings cxLifestyle "Save 10 Percent" 1000 950
      = 10 / 100 * 1000 :=
  c4_percentage_savings cxLifestyle "Save 10 Percent" 1000 950 10 "10%"
    { category := "Savings", option := "Save 10 Percent", monthlyCost := 0,
      percentage := some "10%" }
    (by decide) (by decide) (by decide) (by decide) (by decide)

/-- C7: the "whatever is left" Savings branch (matched case-insensitively)
resolves to max(income - expenses, 0) and is therefore never negative,
even when expenses exceed income. -/
theorem c7_whatever_is_left (lifestyleData : List LifestyleRow)
    (choice : String) (income expenses : ℚ)
    (h : pyLower choice = "whatever is left") :
    resolveSavings lifestyleData choice income expenses
      = max (income - expenses) 0 ∧
    0 ≤ resolveSavings lifestyleData choice income expenses := by
  have hres : resolveSavings lifestyleData choice income expenses
      = if income - expenses ≤ 0 then 0 else income - expenses := by
    simp [resolveSavings, h]
  constructor
  · rw [hres]
    rcases le_or_lt (income - expenses) 0 with hle | hlt
    · rw [if_pos hle, max_eq_right hle]
    · rw [if_neg (not_le.mpr hlt), max_eq_left hlt.le]
  · rw [hres]
    split_ifs with h2
    · exact le_refl 0
    · linarith [not_le.mp h2]

/-- Witness for C7: expenses exceed income yet savings is 0, not
negative. -/
theorem c7_whatever_is_left_witness :
    resolveSavings [] "Whatever is LEFT" 100 150 = max ((100 : ℚ) - 150) 0 ∧
    (0 : ℚ) ≤ resolveSavings [] "Whatever is LEFT" 100 150 :=
  c7_whatever_is_left [] "Whatever is LEFT" 100 150 (by decide)

/-- Fixture: a completed participant record whose Children category has
cost 0 (choice "None"). -/
def recNoChildren : ParticipantRecord :=
  { name := "Alex", profession := "Eng", maritalStatus := "Single",
    militaryService := "No", annualSalary := 50000,
    standardDeduction := 12000, taxableIncome := 38000, federalTax := 3800,
    stateTax := 1900, totalTax := 5700, monthlyIncomeAfterTax := 3691,
    childrenChoice := some "None", childrenCost := some 0,
    whoPaysChoice := some "Self", whoPaysCost := some 100,
    healthChoice := some "Private", healthCost := some 200,
    otherCategories := [] }

/-- Counterexample for C5: on a record whose Children cost is 0, the
doppelganger keeps the original Children choice ("None") instead of
forcing it to "Military". -/
theorem c5_counterexample :
    (makeDoppelganger [] recNoChildren).childrenChoice = some "None" ∧
    (some "None" : Option String) ≠ some "Military" := by
  decide

/-- C5 (amended): the doppelganger keeps the profession and tax fields,
forces Military Service to "Part Time" and suffixes the name with "-mil";
it forces the Children choice to "Military" only when the record carries a
nonzero Children cost, forces the Who Pays for College and Health
Insurance choices to "Military" whenever they are present, and re-prices
the Health Insurance cost from the lifestyle table's Military row when
that row exists. -/
theorem c5_doppelganger (lifestyleData : List LifestyleRow)
    (r : ParticipantRecord) :
    (makeDoppelganger lifestyleData r).name = r.name ++ "-mil" ∧
    (makeDoppelganger lifestyleData r).militaryService = "Part Time" ∧
    (makeDoppelganger lifestyleData r).profession = r.profession ∧
    (makeDoppelganger lifestyleData r).taxableIncome = r.taxableIncome ∧
    (makeDoppelganger lifestyleData r).federalTax = r.federalTax ∧
    (makeDoppelganger lifestyleData r).stateTax = r.stateTax ∧
    (makeDoppelganger lifestyleData r).totalTax = r.totalTax ∧
    (∀ c : ℚ, r.childrenCost = some c → c ≠ 0 →
      (makeDoppelganger lifestyleData r).childrenChoice = some "Military") ∧
    (r.childrenCost = some 0 ∨ r.childrenCost = none →
      (makeDoppelganger lifestyleData r).childrenChoice
        = r.childrenChoice) ∧
    (r.whoPaysChoice.isSome →
      (makeDoppelganger lifestyleData r).whoPaysChoice = some "Military") ∧
    (r.healthChoice.isSome →
      (makeDoppelganger lifestyleData r).healthChoice = some "Military") ∧
    (∀ row : LifestyleRow, r.healthChoice.isSome →
      milHealthRow lifestyleData = some row →
      (makeDoppelganger lifestyleData r).healthCost
        = some row.monthlyCost) := by
  refine ⟨rfl, rfl, rfl, rfl, rfl, rfl, rfl, ?_, ?_, ?_, ?_, ?_⟩
  · intro c hc hne
    simp [makeDoppelganger, hc, hne]
  · intro hc
    rcases hc with hc | hc <;> simp [makeDoppelganger, hc]
  · intro hw
    simp [makeDoppelganger, hw]
  · intro hh
    simp [makeDoppelganger, hh]
  · intro row hh hrow
    simp [makeDoppelganger, hh, hrow]

/-- Fixture: the Military option's Health Insurance pricing row. -/
def milHealthFixture : LifestyleRow :=
  { category := "Health Insurance", option := "Military", monthlyCost := 50,
    percentage := none }

/-- Fixture: a lifestyle table carrying a Military Health Insurance row. -/
def milLifestyle : List LifestyleRow := [milHealthFixture]

/-- Fixture: a record with a nonzero Children cost. -/
def recWithChildren : ParticipantRecord :=
  { recNoChildren with childrenChoice := some "Two", childrenCost := some 5 }

/-- Witness for C5 (amended) at concrete inputs. -/
theorem c5_doppelganger_witness :
    (makeDoppelganger milLifestyle recWithChildren).name = "Alex-mil" ∧
    (makeDoppelganger milLifestyle recWithChildren).childrenChoice
      = some "Military" ∧
    (makeDoppelganger milLifestyle recWithChildren).whoPaysChoice
      = some "Military" ∧
    (makeDoppelganger milLifestyle recWithChildren).healthChoice
      = some "Military" ∧
    (makeDoppelganger milLifestyle recWithChildren).healthCost
      = some 50 := by
  obtain ⟨hname, _, _, _, _, _, _, hchild, _, hwho, hhealth, hcost⟩ :=
    c5_doppelganger milLifestyle recWithChildren
  refine ⟨by rw [hname]; rfl, hchild 5 rfl (by norm_num), hwho rfl,
    hhealth rfl, ?_⟩
  have hc := hcost milHealthFixture rfl (by decide)
  simpa [milHealthFixture] using hc

/-- C6: a record (with its doppelganger) is persisted on submission if and
only if the name is non-empty, a profession is selected, and the remaining
budget is exactly zero; any nonzero remaining budget persists nothing and
the gate does not accept. -/
theorem c6_submission_gate (lifestyleData : List LifestyleRow)
    (r : ParticipantRecord) (remainingBudget : ℚ) :
    (persistedRecords lifestyleData r remainingBudget ≠ [] ↔
      r.name ≠ "" ∧ r.profession ≠ "" ∧ remainingBudget = 0) ∧
    (remainingBudget ≠ 0 →
      persistedRecords lifestyleData r remainingBudget = [] ∧
      submitOutcome r.name r.profession remainingBudget
        ≠ SubmitOutcome.accepted) := by
  have key : submitOutcome r.name r.profession remainingBudget
      = SubmitOutcome.accepted ↔
      (r.name ≠ "" ∧ r.profession ≠ "" ∧ remainingBudget = 0) := by
    unfold submitOutcome
    split_ifs with h1 h2 h3 h4
    · exact iff_of_false (by simp) (by simp [h1])
    · exact iff_of_false (by simp) (by simp [h2])
    · exact iff_of_false (by simp)
        (by rintro ⟨_, _, h0⟩; exact absurd h0 (ne_of_lt h3))
    · exact iff_of_false (by simp)
        (by rintro ⟨_, _, h0⟩; exact absurd h0 (ne_of_gt h4))
    · exact iff_of_true rfl ⟨h1, h2, by linarith⟩
  constructor
  · by_cases ho : submitOutcome r.name r.profession remainingBudget
        = SubmitOutcome.accepted
    · rw [persistedRecords, if_pos ho]
      exact iff_of_true (by simp) (key.mp ho)
    · rw [persistedRecords, if_neg ho]
      exact iff_of_false (by simp) (fun hr => ho (key.mpr hr))
  · intro hrb
    have ho : submitOutcome r.name r.profession remainingBudget
        ≠ SubmitOutcome.accepted := fun ha => hrb (key.mp ha).2.2
    exact ⟨by rw [persistedRecords, if_neg ho], ho⟩

/-- Witness for C6: a positive remaining budget persists nothing. -/
theorem c6_submission_gate_witness :
    persistedRecords [] recNoChildren 5 = [] :=
  ((c6_submission_gate [] recNoChildren 5).2 (by norm_num)).1

/-- C9: when a profession's Requires School field lower-cases to "yes",
the annual salary fed to the tax computation and to monthly income after
tax is the profession's Savings During School value; otherwise it is the
Average Salary. -/
theorem c9_salary_basis (taxData : List TaxBracket) (maritalStatus : String)
    (sp : SkillRow) :
    (pyLower sp.requiresSchool = "yes" →
      sessionTaxes taxData maritalStatus sp
        = calculate_tax_by_status sp.savingsDuringSchool maritalStatus
            taxData ∧
      monthly_income_after_tax taxData maritalStatus sp
        = (sp.savingsDuringSchool
            - (calculate_tax_by_status sp.savingsDuringSchool maritalStatus
                taxData).2.1
            - (calculate_tax_by_status sp.savingsDuringSchool maritalStatus
                taxData).2.2.1) / 12) ∧
    (pyLower sp.requiresSchool ≠ "yes" →
      sessionTaxes taxData maritalStatus sp
        = calculate_tax_by_status sp.averageSalary maritalStatus taxData ∧
      monthly_income_after_tax taxData maritalStatus sp
        = (sp.averageSalary
            - (calculate_tax_by_status sp.averageSalary maritalStatus
                taxData).2.1
            - (calculate_tax_by_status sp.averageSalary maritalStatus
                taxData).2.2.1) / 12) := by
  constructor
  · intro h
    constructor
    · simp [sessionTaxes, selectedSalary, h]
    · simp [monthly_income_after_tax, sessionTaxes, selectedSalary, h]
  · intro h
    constructor
    · simp [sessionTaxes, selectedSalary, h]
    · simp [monthly_income_after_tax, sessionTaxes, selectedSalary, h]

/-- Fixture: a profession that requires school. -/
def spSchool : SkillRow :=
  { profession := "Doctor", requiresSchool := "Yes", averageSalary := 90000,
    savingsDuringSchool := 20000 }

/-- Witness for C9: a "Yes" Requires School profession is taxed on its
Savings During School value. -/
theorem c9_salary_basis_witness :
    sessionTaxes [] "Single" spSchool
      = calculate_tax_by_status spSchool.savingsDuringSchool "Single" [] ∧
    monthly_income_after_tax [] "Single" spSchool
      = (spSchool.savingsDuringSchool
          - (calculate_tax_by_status spSchool.savingsDuringSchool "Single"
              []).2.1
          - (calculate_tax_by_status spSchool.savingsDuringSchool "Single"
              []).2.2.1) / 12 :=
  (c9_salary_basis [] "Single" spSchool).1 (by decide)

/-- C10: every field of the doppelganger other than Name, Military
Service, the Children / Who Pays for College / Health Insurance choices
and the Health Insurance cost is copied verbatim from the original
record; in particular the tax fields, annual salary, monthly income after
tax, the remaining category choices and costs, and the non-health costs
are unchanged, and no budget re-balancing is performed. -/
theorem c10_doppelganger_frame (lifestyleData : List LifestyleRow)
    (r : ParticipantRecord) :
    (makeDoppelganger lifestyleData r).profession = r.profession ∧
    (makeDoppelganger lifestyleData r).maritalStatus = r.maritalStatus ∧
    (makeDoppelganger lifestyleData r).annualSalary = r.annualSalary ∧
    (makeDoppelganger lifestyleData r).standardDeduction
      = r.standardDeduction ∧
    (makeDoppelganger lifestyleData r).taxableIncome = r.taxableIncome ∧
    (makeDoppelganger lifestyleData r).federalTax = r.federalTax ∧
    (makeDoppelganger lifestyleData r).stateTax = r.stateTax ∧
    (makeDoppelganger lifestyleData r).totalTax = r.totalTax ∧
    (makeDoppelganger lifestyleData r).monthlyIncomeAfterTax
      = r.monthlyIncomeAfterTax ∧
    (makeDoppelganger lifestyleData r).childrenCost = r.childrenCost ∧
    (makeDoppelganger lifestyleData r).whoPaysCost = r.whoPaysCost ∧
    (makeDoppelganger lifestyleData r).otherCategories
      = r.otherCategories :=
  ⟨rfl, rfl, rfl, rfl, rfl, rfl, rfl, rfl, rfl, rfl, rfl, rfl⟩

/-- Fixture: a 300-sample series whose net worth is `a` at month 1,
`b` at month 120, and `c` at every other month. -/
def mkSeries (a b c : ℚ) : List MonthlyFinancialSample :=
  (List.range 300).map (fun i =>
    { month := i + 1, accruedSavings := 0, loanValue := 0,
      netWorth := if i = 0 then a else if i = 119 then b else c,
      profession := "P" })

/-- Counterexample for C8: two pairs of 300-point series that differ in
net worth at months 1 and 120 but agree at month 240 produce identical
report data — `generate_pair_report` never extracts months 1 or 120, only
month 240. -/
theorem c8_counterexample :
    pairChartData "Alex" "Alex-mil" (mkSeries 5 7 1) (mkSeries 5 7 1)
      = pairChartData "Alex" "Alex-mil" (mkSeries 0 3 1) (mkSeries 0 3 1) ∧
    ((mkSeries 5 7 1).getD 0 ⟨0, 0, 0, 0, ""⟩).netWorth
      ≠ ((mkSeries 0 3 1).getD 0 ⟨0, 0, 0, 0, ""⟩).netWorth ∧
    ((mkSeries 5 7 1).getD 119 ⟨0, 0, 0, 0, ""⟩).netWorth
      ≠ ((mkSeries 0 3 1).getD 119 ⟨0, 0, 0, 0, ""⟩).netWorth := by
  decide

/-- C8 (amended): for every paired record the report builder extracts the
net-worth value at month 240 only (20 years), for both members of the
pair, via 0-based index 239 into the series (1-based month 240); months 1
and 120 are not sampled. -/
theorem c8_month240_sampling (pName mName : String)
    (pSeries mSeries : List MonthlyFinancialSample)
    (dflt : MonthlyFinancialSample)
    (hp : 240 ≤ pSeries.length) (hm : 240 ≤ mSeries.length) :
    get_networth_20 pSeries = some ((pSeries.getD 239 dflt).netWorth) ∧
    pairChartData pName mName pSeries mSeries
      = [(pName, (pSeries.getD 239 dflt).netWorth),
         (mName, (mSeries.getD 239 dflt).netWorth)] := by
  have hget : ∀ l : List MonthlyFinancialSample, 240 ≤ l.length →
      get_networth_20 l = some ((l.getD 239 dflt).netWorth) := by
    intro l hl
    rw [get_networth_20, if_pos hl,
      List.getD_eq_getElem _ _ (by omega),
      List.get?_eq_getElem?, List.getElem?_eq_getElem (by omega)]
    rfl
  refine ⟨hget pSeries hp, ?_⟩
  rw [pairChartData, hget pSeries hp, hget mSeries hm]
  rfl

/-- Witness for C8 (amended) at concrete 300-point series. -/
theorem c8_month240_sampling_witness :
    get_networth_20 (mkSeries 1 2 3)
      = some (((mkSeries 1 2 3).getD 239 ⟨0, 0, 0, 0, ""⟩).netWorth) ∧
    pairChartData "Alex" "Alex-mil" (mkSeries 1 2 3) (mkSeries 4 5 6)
      = [("Alex", ((mkSeries 1 2 3).getD 239 ⟨0, 0, 0, 0, ""⟩).netWorth),
         ("Alex-mil",
          ((mkSeries 4 5 6).getD 239 ⟨0, 0, 0, 0, ""⟩).netWorth)] :=
  c8_month240_sampling "Alex" "Alex-mil" (mkSeries 1 2 3) (mkSeries 4 5 6)
    ⟨0, 0, 0, 0, ""⟩ (by decide) (by decide)

end Claims
